import Mathlib

/-!
Shallow embedding of the authentication core of the repository
(controllers/authController.js, routes/authRoutes.js, config/passport.js,
models/User.js).  Mongoose documents become a Lean structure, the MongoDB
collection becomes an explicit list-backed store threaded through every
handler, and the Express handlers become pure functions from request data
and store to a response/store pair.  Nondeterministic inputs of the real
system (the freshly generated OTP digits, the current time, the outcome of
the outbound email delivery, NODE_ENV) are passed as explicit parameters.
-/

namespace AuthSys

/-- The `role` enum of the user schema: `['user', 'admin']`. -/
inductive Role where
  | user
  | admin
deriving DecidableEq, BEq

/-- The `method` enum of the user schema: `['local', 'google', 'facebook']`. -/
inductive AuthMethod where
  | localM
  | google
  | facebook
deriving DecidableEq, BEq

/-- A provider sub-record `{ id, email }` as in the `google`/`facebook`
sub-documents of the user schema. -/
structure ProviderLink where
  pid : String
  pemail : String
deriving DecidableEq, BEq

/-- A bcrypt digest.  bcrypt is one-way and salted; the model tags the
digest with the salt and the plaintext it was derived from, so that a
stored `Hashed` value is structurally distinct from a plaintext `String`
(the account field holding it can never hold the plaintext itself). -/
structure Hashed where
  salt : String
  ofPlain : String
deriving DecidableEq, BEq

/-- An account document.  Fields follow the user schema; `otpSecret` and
`otpExpires` are the outstanding OTP challenge, absent when no challenge
is outstanding. -/
structure Account where
  idA : Nat
  method : AuthMethod
  name : String
  email : String
  role : Role
  password : Option Hashed
  isEmailVerified : Bool
  otpSecret : Option String
  otpExpires : Option Nat
  googleL : Option ProviderLink
  facebookL : Option ProviderLink
  avatar : String
deriving DecidableEq, BEq

/-- The account store: the `users` collection plus the id counter that
stands for MongoDB ObjectId assignment. -/
structure Store where
  accounts : List Account
  nextId : Nat
deriving DecidableEq, BEq

/-- Process-wide configuration loaded from the environment
(JWT_SECRET, JWT_EXPIRES_IN, OTP time-to-live, bcrypt salt, NODE_ENV). -/
structure Config where
  jwtSecret : String
  jwtExpiresIn : String
  otpTTL : Nat
  salt : String
  devMode : Bool
deriving DecidableEq, BEq

/-- `User.findOne({ email })`: first account whose `email` field matches. -/
def findOneByEmail (st : Store) (email : String) : Option Account :=
  st.accounts.find? (fun a => a.email == email)

/-- `User.findById(id)`: first account whose id matches. -/
def findById (st : Store) (i : Nat) : Option Account :=
  st.accounts.find? (fun a => a.idA == i)

/-- `User.findOne({ 'google.id': profile.id })`. -/
def findByGoogleId (st : Store) (pid : String) : Option Account :=
  st.accounts.find? (fun a => match a.googleL with
    | some l => l.pid == pid
    | none => false)

/-- `User.findOne({ 'facebook.id': profile.id })`. -/
def findByFacebookId (st : Store) (pid : String) : Option Account :=
  st.accounts.find? (fun a => match a.facebookL with
    | some l => l.pid == pid
    | none => false)

/-- `User.create(...)` / `newUser.save()` for a fresh document: append the
account under the next fresh id. -/
def createAccount (st : Store) (a : Account) : Store :=
  { accounts := st.accounts ++ [a], nextId := st.nextId + 1 }

/-- `user.save()` on an existing document: replace the account with the
same id. -/
def saveAccount (st : Store) (a : Account) : Store :=
  { st with accounts := st.accounts.map (fun b => if b.idA == a.idA then a else b) }

/-- `User.findByIdAndUpdate(id, { role })`: update the role of the matching
account in place. -/
def findByIdAndUpdateRole (st : Store) (i : Nat) (r : Role) : Store :=
  { st with accounts :=
      st.accounts.map (fun b => if b.idA == i then { b with role := r } else b) }

/-- bcrypt.hash with a salt, in the tagged-digest model. -/
def hashPassword (salt plain : String) : Hashed :=
  { salt := salt, ofPlain := plain }

/-- Modelled from the spec: the user model's `comparePassword` method is
not under src/ (part_001 carries an older schema without it; the
controller is its caller).  Per the spec's Credential Verifier,
`verify(plaintext, digest)` delegates to the hash scheme's own comparison:
true exactly when the digest was derived from the entered plaintext.
Accounts without a stored password (federated accounts) never match. -/
def comparePassword (u : Account) (entered : String) : Bool :=
  match u.password with
  | some h => h.ofPlain == entered
  | none => false

/-- The digest stored for an OTP code (the spec's OTP Challenge Manager
stores `hash(code)`, never the code itself). -/
def otpDigest (code : String) : String :=
  String.append "otp-digest:" code

/-- Modelled from the spec: the user model's `generateOTP` method is not
under src/.  Per the spec's OTP Challenge Manager, `issue(account)` stores
`{hash(code), now + TTL}` on the account, overwriting any prior challenge,
and returns the plaintext code.  The freshly drawn code is an explicit
parameter. -/
def generateOTP (cfg : Config) (now : Nat) (code : String) (u : Account) :
    Account × String :=
  ({ u with otpSecret := some (otpDigest code),
            otpExpires := some (now + cfg.otpTTL) }, code)

/-- Modelled from the spec: the user model's `verifyOTP` method is not
under src/.  Per the spec's OTP Challenge Manager, `verify` fails closed:
false if no challenge is outstanding, if `now > expiresAt`, or if the hash
of the supplied code does not match the stored digest. -/
def verifyOTP (now : Nat) (u : Account) (supplied : String) : Bool :=
  match u.otpSecret, u.otpExpires with
  | some s, some e => decide (now ≤ e) && (s == otpDigest supplied)
  | _, _ => false

/-- A JavaScript value as it lands in a JWT claim: accessing `.email` on an
ObjectId yields `undefined`, accessing `.id` on an ObjectId yields the raw
byte buffer, while the same accessors on a user document yield the string
id, the email string and the role. -/
inductive JsVal where
  | undef
  | str (s : String)
  | docId (i : Nat)
  | buffer (i : Nat)
  | roleV (r : Role)
deriving DecidableEq, BEq

/-- The signed JWT: its payload claims `{ id, email, role }` plus the
signing secret and the configured expiry (`jwt.sign(payload, JWT_SECRET,
{ expiresIn: JWT_EXPIRES_IN })` in config/passport.js). -/
structure Token where
  idC : JsVal
  emailC : JsVal
  roleC : JsVal
  secret : String
  expiresIn : String
deriving DecidableEq, BEq

/-- The property accesses `user.id`, `user.email`, `user.role` performed by
`generateToken` when its argument is an account document. -/
def accountClaims (u : Account) : JsVal × JsVal × JsVal :=
  (JsVal.docId u.idA, JsVal.str u.email, JsVal.roleV u.role)

/-- The same property accesses when the argument is a raw ObjectId (as in
`generateToken(user._id)` in the login handler): `.id` on an ObjectId is
its raw byte buffer, and `.email` / `.role` are `undefined`. -/
def objectIdClaims (i : Nat) : JsVal × JsVal × JsVal :=
  (JsVal.buffer i, JsVal.undef, JsVal.undef)

/-- `generateToken` from config/passport.js: builds the payload from the
`.id`, `.email` and `.role` properties of its argument and signs it. -/
def generateToken (cfg : Config) (claims : JsVal × JsVal × JsVal) : Token :=
  { idC := claims.1, emailC := claims.2.1, roleC := claims.2.2,
    secret := cfg.jwtSecret, expiresIn := cfg.jwtExpiresIn }

/-- Modelled from the spec: the auth middleware (`protect`) is not under
src/ (the routes are its caller).  Per the spec's Authorization Gate,
`authenticate(token)` verifies the signature and re-resolves the account
by the token's subject-id claim, failing on any signature or lookup
failure; a claim that is not a document-id string cannot be cast to an
ObjectId and the lookup fails. -/
def authenticate (cfg : Config) (st : Store) (t : Token) : Option Account :=
  if t.secret == cfg.jwtSecret then
    match t.idC with
    | JsVal.docId i => findById st i
    | _ => none
  else none

/-- The JSON body an Express handler sends back, flattened to the fields
the flows use.  `status` is the HTTP status code. -/
structure Response where
  status : Nat
  success : Bool
  message : String
  token : Option Token := none
  requiresVerification : Bool := false
  devOtp : Option String := none
  redirectUrl : Option String := none
deriving DecidableEq, BEq

/-- Modelled from the spec (account shape only): the user model in force
for the controller is not under src/ — part_001 carries an older schema
with no flat `password`, no OTP fields and no `isEmailVerified`.  Per the
spec's local-registration flow, the created account has `method = local`,
the password stored as a salted hash via the pre-save hook, and
`isEmailVerified = false`; the role comes from the controller
(`req.isAdminLogin ? 'admin' : 'user'`). -/
def newLocalAccount (cfg : Config) (i : Nat) (name email pw : String)
    (r : Role) : Account :=
  { idA := i, method := AuthMethod.localM, name := name, email := email,
    role := r, password := some (hashPassword cfg.salt pw),
    isEmailVerified := false, otpSecret := none, otpExpires := none,
    googleL := none, facebookL := none, avatar := "" }

/-- `register` from authController.js: conflict if the email is taken;
otherwise create the account (role from the admin-intent flag), issue an
OTP challenge, persist, then attempt email delivery — a delivery failure
fails the response with a 500 while the account stays created; success
returns a pending-verification 200 with no token (the OTP itself is
echoed only in development mode). -/
def register (cfg : Config) (now : Nat) (st : Store)
    (name email pw : String) (isAdminLogin : Bool)
    (otpCode : String) (emailSent : Bool) : Response × Store :=
  match findOneByEmail st email with
  | some _ =>
      ({ status := 400, success := false, message := "User already exists" }, st)
  | none =>
      let u0 := newLocalAccount cfg st.nextId name email pw
        (if isAdminLogin then Role.admin else Role.user)
      let p := generateOTP cfg now otpCode u0
      let st1 := createAccount st p.1
      if emailSent then
        ({ status := 200, success := true,
           message := "registered, check email for verification code",
           devOtp := if cfg.devMode then some p.2 else none }, st1)
      else
        ({ status := 500, success := false,
           message := "Error sending verification email" }, st1)

/-- `login` from authController.js: 401 on unknown email or password
mismatch; 403 when the admin-intent flag disagrees with the account role
(both directions); 401 pending-verification with a freshly issued OTP and
no token when the email is unverified; otherwise a 200 carrying
`generateToken(user._id)` — note the argument is the raw ObjectId, not the
user document — and a role-derived redirect. -/
def login (cfg : Config) (now : Nat) (st : Store) (email pw : String)
    (isAdminLogin : Bool) (freshOtp : String) : Response × Store :=
  match findOneByEmail st email with
  | none =>
      ({ status := 401, success := false, message := "Invalid credentials" }, st)
  | some u =>
      if !(comparePassword u pw) then
        ({ status := 401, success := false, message := "Invalid credentials" }, st)
      else if isAdminLogin && !(u.role == Role.admin) then
        ({ status := 403, success := false,
           message := "Not authorized for admin access" }, st)
      else if !isAdminLogin && u.role == Role.admin then
        ({ status := 403, success := false, message := "Please use admin login" }, st)
      else if !u.isEmailVerified then
        let p := generateOTP cfg now freshOtp u
        ({ status := 401, success := false,
           message := "Please verify your email first",
           requiresVerification := true,
           devOtp := if cfg.devMode then some p.2 else none },
         saveAccount st p.1)
      else
        ({ status := 200, success := true, message := "ok",
           token := some (generateToken cfg (objectIdClaims u.idA)),
           redirectUrl := some (if u.role == Role.admin then "/admin/dashboard"
             else "/dashboard") }, st)

/-- `verifyEmail` from authController.js: 404 on unknown email; 401 with no
state change when `verifyOTP` rejects; on acceptance it sets
`isEmailVerified`, clears both challenge fields and persists — and then
evaluates `signToken`, an identifier that is neither defined nor imported
anywhere in the repository (only `generateToken` is imported), so the
handler throws a ReferenceError after the save and the catch block answers
500 with no token. -/
def verifyEmail (now : Nat) (st : Store) (email otp : String) :
    Response × Store :=
  match findOneByEmail st email with
  | none =>
      ({ status := 404, success := false, message := "User not found" }, st)
  | some u =>
      if !(verifyOTP now u otp) then
        ({ status := 401, success := false, message := "Invalid or expired OTP" }, st)
      else
        let u1 : Account :=
          { u with isEmailVerified := true, otpSecret := none, otpExpires := none }
        let st1 := saveAccount st u1
        ({ status := 500, success := false,
           message := "signToken is not defined" }, st1)

/-- The OAuth profile delivered by a provider callback. -/
structure OAuthProfile where
  pid : String
  emails : List String
  displayName : String
  photos : List String
deriving DecidableEq, BEq

/-- The Google strategy verify callback from config/passport.js: look up by
`google.id`; if found return the existing account unchanged, else create a
new account with `method = google`, the profile's primary email (or empty
string), display name, default role `user` and first photo (or empty
string). -/
def googleVerify (st : Store) (p : OAuthProfile) : Account × Store :=
  match findByGoogleId st p.pid with
  | some existing => (existing, st)
  | none =>
      let email := (p.emails.head?).getD ""
      let newU : Account :=
        { idA := st.nextId, method := AuthMethod.google, name := p.displayName,
          email := email, role := Role.user, password := none,
          isEmailVerified := false, otpSecret := none, otpExpires := none,
          googleL := some { pid := p.pid, pemail := email }, facebookL := none,
          avatar := (p.photos.head?).getD "" }
      (newU, createAccount st newU)

/-- The Facebook strategy verify callback from config/passport.js, the
mirror image of the Google one over `facebook.id`. -/
def facebookVerify (st : Store) (p : OAuthProfile) : Account × Store :=
  match findByFacebookId st p.pid with
  | some existing => (existing, st)
  | none =>
      let email := (p.emails.head?).getD ""
      let newU : Account :=
        { idA := st.nextId, method := AuthMethod.facebook, name := p.displayName,
          email := email, role := Role.user, password := none,
          isEmailVerified := false, otpSecret := none, otpExpires := none,
          googleL := none, facebookL := some { pid := p.pid, pemail := email },
          avatar := (p.photos.head?).getD "" }
      (newU, createAccount st newU)

/-- The result of an OAuth callback handler: a redirect carrying the token. -/
structure CallbackResult where
  token : Option Token
  redirectPath : String
deriving DecidableEq, BEq

/-- `googleCallback` from authController.js (shared by the Facebook route):
when the route was admin-flagged, force `role = admin` on the in-memory
user and persist it with `findByIdAndUpdate`; then issue a token from the
user document unconditionally and redirect by role. -/
def googleCallback (cfg : Config) (st : Store) (isAdminLogin : Bool)
    (reqUser : Account) : CallbackResult × Store :=
  let u := if isAdminLogin then { reqUser with role := Role.admin } else reqUser
  let st1 := if isAdminLogin then findByIdAndUpdateRole st reqUser.idA Role.admin
    else st
  let token := generateToken cfg (accountClaims u)
  ({ token := some token,
     redirectPath := if u.role == Role.admin then "/admin/dashboard"
       else "/dashboard" }, st1)

/-- `updateUserRole` from authController.js: reject a missing or invalid
role body with a 400 before any lookup; then 404 on an unknown target;
otherwise set the role and persist. -/
def updateUserRole (st : Store) (roleBody : Option String) (uid : Nat) :
    Response × Store :=
  match roleBody with
  | none =>
      ({ status := 400, success := false,
         message := "Please provide a valid role (user or admin)" }, st)
  | some r =>
      if r == "" || !(r == "user" || r == "admin") then
        ({ status := 400, success := false,
           message := "Please provide a valid role (user or admin)" }, st)
      else
        match findById st uid with
        | none =>
            ({ status := 404, success := false, message := "No user found" }, st)
        | some u =>
            let u1 := { u with role := if r == "admin" then Role.admin else Role.user }
            ({ status := 200, success := true, message := "ok" }, saveAccount st u1)

/-- The account as it sits in the store right after the create-and-issue
steps of a successful local registration: the fresh local account with
the OTP challenge applied. -/
def registeredAccount (cfg : Config) (now : Nat) (i : Nat)
    (name email pw code : String) (isAdminLogin : Bool) : Account :=
  (generateOTP cfg now code (newLocalAccount cfg i name email pw
    (if isAdminLogin then Role.admin else Role.user))).1

/-! Concrete fixtures used to instantiate the theorems below. -/

/-- A concrete configuration. -/
def cfg0 : Config :=
  { jwtSecret := "jwt-key", jwtExpiresIn := "7d", otpTTL := 600,
    salt := "s1", devMode := true }

/-- A verified local user-role account. -/
def uVerified : Account :=
  { idA := 1, method := AuthMethod.localM, name := "A", email := "a@x.com",
    role := Role.user, password := some (hashPassword "s1" "p1"),
    isEmailVerified := true, otpSecret := none, otpExpires := none,
    googleL := none, facebookL := none, avatar := "" }

/-- An unverified local account with an outstanding OTP challenge
(code 123456, expiring at time 700). -/
def uUnverified : Account :=
  { idA := 2, method := AuthMethod.localM, name := "B", email := "b@x.com",
    role := Role.user, password := some (hashPassword "s1" "p2"),
    isEmailVerified := false, otpSecret := some (otpDigest "123456"),
    otpExpires := some 700, googleL := none, facebookL := none, avatar := "" }

/-- A store holding the two local accounts. -/
def stA : Store := { accounts := [uVerified, uUnverified], nextId := 3 }

/-- A federated account linked to Google provider id gid-1. -/
def gAcct : Account :=
  { idA := 5, method := AuthMethod.google, name := "G", email := "g@x.com",
    role := Role.user, password := none, isEmailVerified := false,
    otpSecret := none, otpExpires := none,
    googleL := some { pid := "gid-1", pemail := "g@x.com" }, facebookL := none,
    avatar := "" }

/-- A store holding only the federated account. -/
def stG : Store := { accounts := [gAcct], nextId := 6 }

/-- A Google profile carrying the known provider id but a drifted display
name and email. -/
def pG : OAuthProfile :=
  { pid := "gid-1", emails := ["new-g@x.com"], displayName := "G Renamed",
    photos := [] }

/-! Helper lemmas shared by the claim theorems. -/

/-- Appending to a list on which `find?` failed makes `find?` continue in
the appended part. -/
theorem find?_append_of_none {α : Type} (p : α → Bool) (l1 l2 : List α)
    (h : l1.find? p = none) : (l1 ++ l2).find? p = l2.find? p := by
  rw [List.find?_append, h, Option.none_or]

/-- Mapping a role rewrite over the accounts preserves a successful
id-keyed `find?`, updating the found account's role. -/
theorem find?_map_role_update (i : Nat) (r : Role) (l : List Account)
    (a : Account) (h : l.find? (fun b => b.idA == i) = some a) :
    (l.map (fun b => if b.idA == i then { b with role := r } else b)).find?
      (fun b => b.idA == i) = some { a with role := r } := by
  induction l with
  | nil => simp [List.find?] at h
  | cons x l ih =>
    by_cases hx : (x.idA == i) = true
    · simp only [List.find?_cons, hx, cond_true, Option.some.injEq] at h
      subst h
      have hx2 : x.idA = i := by simpa using hx
      simp [List.find?_cons, hx2]
    · have hx2 : (x.idA == i) = false := by simpa using hx
      simp only [List.find?_cons, hx2, cond_false] at h
      simp only [List.map_cons, if_neg hx, List.find?_cons]
      simp only [hx2, cond_false]
      exact ih h

/-- C1: a usable session token is issued only subject to the verification
gate: `login` against an unverified local account (with correct
credentials and a matching admin-intent surface) answers a 401
pending-verification response with no token; `login` returns a token only
when the resolved account has `isEmailVerified = true`; and `verifyEmail`
never hands out a token (its issuing step crashes before responding), so
neither surface ever gives a token to an unverified local account. -/
theorem c1_usable_token_only_for_verified (cfg : Config) (now : Nat)
    (st : Store) (email pw otp fresh : String) (isAdminLogin : Bool) :
    ((login cfg now st email pw isAdminLogin fresh).1.token.isSome = true →
      ∃ u, findOneByEmail st email = some u ∧ u.isEmailVerified = true)
    ∧ (verifyEmail now st email otp).1.token = none
    ∧ (∀ u, findOneByEmail st email = some u → comparePassword u pw = true →
        isAdminLogin = (u.role == Role.admin) → u.isEmailVerified = false →
        (login cfg now st email pw isAdminLogin fresh).1.status = 401 ∧
        (login cfg now st email pw isAdminLogin fresh).1.requiresVerification
          = true ∧
        (login cfg now st email pw isAdminLogin fresh).1.token = none) := by
  refine ⟨?_, ?_, ?_⟩
  · intro htok
    cases hu : findOneByEmail st email with
    | none => simp [login, hu] at htok
    | some u =>
      refine ⟨u, rfl, ?_⟩
      simp only [login, hu] at htok
      split at htok
      · simp at htok
      · split at htok
        · simp at htok
        · split at htok
          · simp at htok
          · split at htok
            · simp at htok
            · rename_i h4
              simpa using h4
  · cases hu : findOneByEmail st email with
    | none => simp [verifyEmail, hu]
    | some u =>
      by_cases hv : verifyOTP now u otp = true
      · simp [verifyEmail, hu, hv]
      · simp [verifyEmail, hu, hv]
  · intro u hu hc hgate hunv
    subst hgate
    refine ⟨?_, ?_, ?_⟩ <;> simp [login, hu, hc, hunv]

/-- Witness for C1: the concrete unverified account of `stA`, with correct
credentials on the user surface, gets the pending-verification 401 and no
token. -/
theorem c1_usable_token_only_for_verified_witness :
    (login cfg0 650 stA "b@x.com" "p2" false "999111").1.status = 401 ∧
    (login cfg0 650 stA "b@x.com" "p2" false "999111").1.requiresVerification
      = true ∧
    (login cfg0 650 stA "b@x.com" "p2" false "999111").1.token = none :=
  (c1_usable_token_only_for_verified cfg0 650 stA "b@x.com" "p2" "x" "999111"
    false).2.2 uUnverified (by decide) (by decide) (by decide) (by decide)

/-- C2: fails on the code. `login` mints the token by
`generateToken(user._id)` — the raw ObjectId, not the user document — so
the minted token's email and role claims are `undefined` instead of the
account's email and role, and the authorization gate cannot resolve the
token back to the account: evaluated on the concrete verified account of
`stA`, login succeeds but the token claims are degenerate and
authentication of the minted token fails. -/
theorem c2_login_token_claims_degenerate :
    (login cfg0 0 stA "a@x.com" "p1" false "111111").1.token =
      some (generateToken cfg0 (objectIdClaims 1)) ∧
    (generateToken cfg0 (objectIdClaims 1)).emailC = JsVal.undef ∧
    (generateToken cfg0 (objectIdClaims 1)).roleC = JsVal.undef ∧
    JsVal.undef ≠ JsVal.str uVerified.email ∧
    JsVal.undef ≠ JsVal.roleV uVerified.role ∧
    authenticate cfg0 stA (generateToken cfg0 (objectIdClaims 1)) = none :=
  ⟨by decide, rfl, rfl, by decide, by decide, by decide⟩

/-- C3: local registration with a taken email answers Conflict and
creates nothing; with a free email it appends exactly one account, with
method local, the password stored only as a salted digest, unverified,
role admin exactly when the request carries admin intent, and no token in
the response. -/
theorem c3_register_conflict_or_one_hashed_unverified_account (cfg : Config)
    (now : Nat) (st : Store) (name email pw code : String)
    (isAdminLogin emailSent : Bool) :
    (findOneByEmail st email ≠ none →
      (register cfg now st name email pw isAdminLogin code emailSent).1.status
        = 400 ∧
      (register cfg now st name email pw isAdminLogin code emailSent).2 = st)
    ∧ (findOneByEmail st email = none →
      ∃ a,
        (register cfg now st name email pw isAdminLogin code emailSent).2.accounts
          = st.accounts ++ [a]
        ∧ a.method = AuthMethod.localM
        ∧ a.password = some (hashPassword cfg.salt pw)
        ∧ a.isEmailVerified = false
        ∧ (a.role = Role.admin ↔ isAdminLogin = true)
        ∧ (register cfg now st name email pw isAdminLogin code emailSent).1.token
            = none) := by
  constructor
  · intro hne
    cases hu : findOneByEmail st email with
    | none => exact absurd hu hne
    | some u => constructor <;> simp [register, hu]
  · intro hu
    refine ⟨registeredAccount cfg now st.nextId name email pw code isAdminLogin,
      ?_, rfl, rfl, rfl, ?_, ?_⟩
    · cases emailSent <;>
        simp [register, hu, createAccount, registeredAccount]
    · cases isAdminLogin <;>
        simp [registeredAccount, generateOTP, newLocalAccount]
    · cases emailSent <;> simp [register, hu]

/-- Witness for C3: registering a fresh admin-intent account on the
concrete store creates exactly one local, hashed, unverified admin
account and returns no token. -/
theorem c3_register_witness :
    ∃ a,
      (register cfg0 100 stA "C" "c@x.com" "p3" true "222333" true).2.accounts
        = stA.accounts ++ [a]
      ∧ a.method = AuthMethod.localM
      ∧ a.password = some (hashPassword cfg0.salt "p3")
      ∧ a.isEmailVerified = false
      ∧ (a.role = Role.admin ↔ true = true)
      ∧ (register cfg0 100 stA "C" "c@x.com" "p3" true "222333" true).1.token
          = none :=
  (c3_register_conflict_or_one_hashed_unverified_account cfg0 100 stA "C"
    "c@x.com" "p3" "222333" true true).2 (by decide)

/-- C4: fails on the code. On an accepted OTP, `verifyEmail` does set the
verified flag, clear both challenge fields and persist — but its token
step evaluates `signToken`, an identifier neither defined nor imported in
the repository, so the handler throws and answers 500 with no token
instead of returning a signed token: evaluated at the concrete account
with its valid outstanding code. -/
theorem c4_verify_email_crashes_instead_of_issuing_token :
    (verifyEmail 650 stA "b@x.com" "123456").1.status = 500 ∧
    (verifyEmail 650 stA "b@x.com" "123456").1.token = none ∧
    findById (verifyEmail 650 stA "b@x.com" "123456").2 2 =
      some { uUnverified with isEmailVerified := true, otpSecret := none, otpExpires := none } :=
  ⟨by decide, by decide, by decide⟩

/-- C5: with correct credentials, the admin and user login surfaces are
mutually exclusive: admin intent against a non-admin account fails 403
with no token and no state change, and user intent against an admin
account fails 403 likewise. -/
theorem c5_admin_and_user_login_surfaces_exclusive (cfg : Config)
    (now : Nat) (st : Store) (email pw fresh : String) (u : Account)
    (hu : findOneByEmail st email = some u)
    (hpw : comparePassword u pw = true) :
    (u.role ≠ Role.admin →
      (login cfg now st email pw true fresh).1.status = 403 ∧
      (login cfg now st email pw true fresh).1.token = none ∧
      (login cfg now st email pw true fresh).2 = st)
    ∧ (u.role = Role.admin →
      (login cfg now st email pw false fresh).1.status = 403 ∧
      (login cfg now st email pw false fresh).1.token = none ∧
      (login cfg now st email pw false fresh).2 = st) := by
  constructor
  · intro hr
    have hb : (u.role == Role.admin) = false := by
      cases hur : u.role with
      | user => decide
      | admin => exact absurd hur hr
    refine ⟨?_, ?_, ?_⟩ <;> simp [login, hu, hpw, hb]
  · intro hr
    have hb : (u.role == Role.admin) = true := by
      rw [hr]; decide
    refine ⟨?_, ?_, ?_⟩ <;> simp [login, hu, hpw, hb]

/-- Witness for C5: admin-intent login with the concrete user-role
account's correct credentials is rejected 403 without a token. -/
theorem c5_admin_and_user_login_surfaces_exclusive_witness :
    (login cfg0 0 stA "a@x.com" "p1" true "111").1.status = 403 ∧
    (login cfg0 0 stA "a@x.com" "p1" true "111").1.token = none ∧
    (login cfg0 0 stA "a@x.com" "p1" true "111").2 = stA :=
  (c5_admin_and_user_login_surfaces_exclusive cfg0 0 stA "a@x.com" "p1" "111"
    uVerified (by decide) (by decide)).1 (by decide)

/-- C6: a second provider callback with the same provider id resolves to
the account produced by the first and changes nothing, for both
providers; and a found account is returned unchanged together with an
unchanged store (profile drift is not synced back). -/
theorem c6_same_provider_id_never_two_accounts (st : Store)
    (p : OAuthProfile) :
    googleVerify (googleVerify st p).2 p = googleVerify st p
    ∧ facebookVerify (facebookVerify st p).2 p = facebookVerify st p
    ∧ (∀ a, findByGoogleId st p.pid = some a → googleVerify st p = (a, st))
    ∧ (∀ a, findByFacebookId st p.pid = some a →
        facebookVerify st p = (a, st)) := by
  refine ⟨?_, ?_, ?_, ?_⟩
  · cases hg : findByGoogleId st p.pid with
    | some a => simp [googleVerify, hg]
    | none =>
      have h2 : findByGoogleId (googleVerify st p).2 p.pid =
          some (googleVerify st p).1 := by
        simp only [googleVerify, hg]
        unfold findByGoogleId at hg ⊢
        simp only [createAccount]
        rw [find?_append_of_none _ _ _ hg]
        simp [List.find?_cons]
      cases hgv : googleVerify st p with
      | mk a1 s1 =>
        rw [hgv] at h2
        simp only [] at h2
        simp [googleVerify, h2]
  · cases hg : findByFacebookId st p.pid with
    | some a => simp [facebookVerify, hg]
    | none =>
      have h2 : findByFacebookId (facebookVerify st p).2 p.pid =
          some (facebookVerify st p).1 := by
        simp only [facebookVerify, hg]
        unfold findByFacebookId at hg ⊢
        simp only [createAccount]
        rw [find?_append_of_none _ _ _ hg]
        simp [List.find?_cons]
      cases hgv : facebookVerify st p with
      | mk a1 s1 =>
        rw [hgv] at h2
        simp only [] at h2
        simp [facebookVerify, h2]
  · intro a ha
    simp [googleVerify, ha]
  · intro a ha
    simp [facebookVerify, ha]

/-- Witness for C6: a callback carrying the known provider id gid-1 but a
drifted display name and email returns the stored account unchanged and
leaves the store untouched. -/
theorem c6_same_provider_id_never_two_accounts_witness :
    googleVerify stG pG = (gAcct, stG) :=
  (c6_same_provider_id_never_two_accounts stG pG).2.2.1 gAcct (by decide)

/-- C7: an OAuth callback on an admin-intent-flagged route issues a token
unconditionally — for every incoming account, whatever its verification
state — with the role claim forced to admin and an admin redirect, and
persists role admin onto the stored account, silently promoting a
pre-existing user-role account. -/
theorem c7_admin_flagged_callback_promotes_and_issues (cfg : Config)
    (st : Store) (reqUser : Account) :
    (googleCallback cfg st true reqUser).1.token =
      some (generateToken cfg (accountClaims { reqUser with role := Role.admin }))
    ∧ (googleCallback cfg st true reqUser).1.redirectPath = "/admin/dashboard"
    ∧ (∀ a, findById st reqUser.idA = some a →
        findById (googleCallback cfg st true reqUser).2 reqUser.idA =
          some { a with role := Role.admin }) := by
  refine ⟨rfl, rfl, ?_⟩
  intro a ha
  simp only [findById] at ha
  simp only [googleCallback, if_pos rfl, findByIdAndUpdateRole, findById]
  exact find?_map_role_update reqUser.idA Role.admin st.accounts a ha

/-- Witness for C7: the admin-flagged callback for the stored user-role
account persists role admin for it. -/
theorem c7_admin_flagged_callback_promotes_and_issues_witness :
    findById (googleCallback cfg0 stA true uVerified).2 uVerified.idA =
      some { uVerified with role := Role.admin } :=
  (c7_admin_flagged_callback_promotes_and_issues cfg0 stA uVerified).2.2
    uVerified (by decide)

/-- C8: a rejected OTP leaves everything as it was: `verifyEmail` answers
401 and returns the store unchanged, so the outstanding challenge is not
consumed and the same code can still succeed later. -/
theorem c8_rejected_otp_unauthorized_no_state_change (now : Nat) (st : Store)
    (email otp : String) (u : Account)
    (hu : findOneByEmail st email = some u)
    (hrej : verifyOTP now u otp = false) :
    verifyEmail now st email otp =
      ({ status := 401, success := false, message := "Invalid or expired OTP" },
       st) := by
  simp [verifyEmail, hu, hrej]

/-- Witness for C8: a wrong code against the concrete outstanding
challenge is rejected 401 with the store returned untouched. -/
theorem c8_rejected_otp_unauthorized_no_state_change_witness :
    verifyEmail 650 stA "b@x.com" "000000" =
      ({ status := 401, success := false, message := "Invalid or expired OTP" },
       stA) :=
  c8_rejected_otp_unauthorized_no_state_change 650 stA "b@x.com" "000000"
    uUnverified (by decide) (by decide)

/-- C9: when the account was created and the verification-email delivery
then fails, registration answers a 500 delivery failure with no token
while the created account remains in the store — it is not rolled back. -/
theorem c9_delivery_failure_account_remains (cfg : Config) (now : Nat)
    (st : Store) (name email pw code : String) (isAdminLogin : Bool)
    (hfree : findOneByEmail st email = none) :
    (register cfg now st name email pw isAdminLogin code false).1.status = 500 ∧
    (register cfg now st name email pw isAdminLogin code false).1.message =
      "Error sending verification email" ∧
    (register cfg now st name email pw isAdminLogin code false).1.token = none ∧
    (register cfg now st name email pw isAdminLogin code false).2.accounts =
      st.accounts ++
        [registeredAccount cfg now st.nextId name email pw code isAdminLogin] := by
  refine ⟨?_, ?_, ?_, ?_⟩ <;>
    simp [register, hfree, createAccount, registeredAccount]

/-- Witness for C9: a registration on the concrete store whose delivery
step fails answers 500 yet the new account sits appended in the store. -/
theorem c9_delivery_failure_account_remains_witness :
    (register cfg0 100 stA "D" "d@x.com" "p4" false "444555" false).1.status
      = 500 ∧
    (register cfg0 100 stA "D" "d@x.com" "p4" false "444555" false).1.message =
      "Error sending verification email" ∧
    (register cfg0 100 stA "D" "d@x.com" "p4" false "444555" false).1.token
      = none ∧
    (register cfg0 100 stA "D" "d@x.com" "p4" false "444555" false).2.accounts =
      stA.accounts ++
        [registeredAccount cfg0 100 stA.nextId "D" "d@x.com" "p4" "444555"
          false] :=
  c9_delivery_failure_account_remains cfg0 100 stA "D" "d@x.com" "p4" "444555"
    false (by decide)

/-- C10: role validation precedes the target lookup in the role-update
operation: a missing or invalid role body answers 400 InvalidInput with
the store untouched, for every store — in particular also when the target
account does not exist, so InvalidInput takes precedence over NotFound. -/
theorem c10_invalid_role_rejected_before_lookup (st : Store)
    (roleBody : Option String) (uid : Nat)
    (hbad : ∀ s, roleBody = some s → s ≠ "user" ∧ s ≠ "admin") :
    updateUserRole st roleBody uid =
      ({ status := 400, success := false,
         message := "Please provide a valid role (user or admin)" }, st) := by
  cases roleBody with
  | none => rfl
  | some s =>
    obtain ⟨h1, h2⟩ := hbad s rfl
    have e1 : (s == "user") = false := beq_eq_false_iff_ne.mpr h1
    have e2 : (s == "admin") = false := beq_eq_false_iff_ne.mpr h2
    by_cases hs : (s == "") = true
    · simp [updateUserRole, hs]
    · simp [updateUserRole, hs, e1, e2]

/-- Witness for C10: an invalid role name aimed at a target id absent from
the concrete store is answered 400, not 404, with the store untouched. -/
theorem c10_invalid_role_rejected_before_lookup_witness :
    updateUserRole stA (some "superuser") 99 =
      ({ status := 400, success := false,
         message := "Please provide a valid role (user or admin)" }, stA) ∧
    findById stA 99 = none :=
  ⟨c10_invalid_role_rejected_before_lookup stA (some "superuser") 99
    (by intro s hs; injection hs with h; subst h; exact ⟨by decide, by decide⟩),
   by decide⟩

end AuthSys
